import Mathlib

/-!
Verification development for the Gen-AI repository (src/projects/app.py).

The file embeds the document-chat pipeline of `app.py` in Lean:
the text extractor (`extract_text`), the chunker configuration
(`get_chunks`), the indexer (`get_vectorstore`), the conversation chain
(`get_conversation_chain`), the question handler (`generate_response`),
the quiz handler (`generate_quiz`) and the upload-and-process event of
`run_UI` (`process_event`).  The external collaborators (langchain's
`CharacterTextSplitter`, `FAISS`/`OpenAIEmbeddings`, and the hosted chat
model) are not part of the repository; the parts of their behaviour the
pipeline depends on are modelled from the specification, as noted on the
corresponding definitions.
-/

set_option maxHeartbeats 1000000
set_option maxRecDepth 8192

namespace GenAI

/-- Chunker configuration from `get_chunks` in `src/projects/app.py`:
`chunk_size=1000`. -/
def chunk_size : Nat := 1000

/-- Chunker configuration from `get_chunks` in `src/projects/app.py`:
`chunk_overlap=200`. -/
def chunk_overlap : Nat := 200

/-- Chunker configuration from `get_chunks` in `src/projects/app.py`:
`separator="\n"`. -/
def separator : Char := '\n'

/-- Modelled from the spec: the separator-snapping rule of the Chunker
(the implementation, langchain's `CharacterTextSplitter`, is an external
library; only its configuration appears in `src/projects/app.py`).
`lastSep sep text n` is the largest cut position `i ≤ n` such that the
character just before the cut (`text[i-1]`) is the separator and the cut
leaves room for the configured overlap (`chunk_overlap < i`); `none` when
no such separator boundary exists in range. -/
def lastSep (sep : Char) (text : List Char) : Nat → Option Nat
  | 0 => none
  | n + 1 =>
    if n + 1 ≤ chunk_overlap then none
    else if text[n]? = some sep then some (n + 1)
    else lastSep sep text n

/-- Modelled from the spec: "splits prefer the given separator boundary
when one exists within range, otherwise fall back to a hard cut".  The cut
for the next chunk: the last separator boundary within the first
`chunk_size` characters (leaving room for the overlap), or a hard cut at
`chunk_size`. -/
def snapCut (sep : Char) (text : List Char) : Nat :=
  (lastSep sep text chunk_size).getD chunk_size

theorem lastSep_bounds (sep : Char) (text : List Char) :
    ∀ n r, lastSep sep text n = some r → chunk_overlap < r ∧ r ≤ n := by
  intro n
  induction n with
  | zero => intro r h; simp [lastSep] at h
  | succ n ih =>
    intro r h
    unfold lastSep at h
    split at h
    · exact absurd h (by simp)
    · split at h
      · injection h with h; omega
      · have := ih r h; omega

theorem snapCut_bounds (sep : Char) (text : List Char) :
    chunk_overlap < snapCut sep text ∧ snapCut sep text ≤ chunk_size := by
  unfold snapCut
  cases h : lastSep sep text chunk_size with
  | none => simp [chunk_overlap, chunk_size]
  | some r =>
    have := lastSep_bounds sep text chunk_size r h
    simpa using this

/-- Modelled from the spec: the chunking loop of the Chunker
(langchain's `CharacterTextSplitter`, external to the repository; only
its configuration `chunk_size=1000`, `chunk_overlap=200`, `separator="\n"`
is in `src/projects/app.py`).  Fuel-indexed so that the function is
structurally recursive; the fuel is always at least `text.length`.  A text
of at most `chunk_size` characters is a single chunk (none for empty
input); a longer text contributes its first `snapCut` characters as a
chunk and continues `chunk_overlap` characters before the cut, so that
consecutive chunks share the configured overlap. -/
def chunkLoop (sep : Char) : Nat → List Char → List (List Char)
  | 0, _ => []
  | fuel + 1, text =>
    if text.length ≤ chunk_size then
      if text.isEmpty then [] else [text]
    else
      text.take (snapCut sep text) ::
        chunkLoop sep fuel (text.drop (snapCut sep text - chunk_overlap))

/-- Modelled from the spec: `get_chunks` of `src/projects/app.py`
configures the external splitter with `chunk_size=1000`,
`chunk_overlap=200`, `separator="\n"` and returns the list of chunks of
the raw text. -/
def get_chunks (text : List Char) : List (List Char) :=
  chunkLoop separator text.length text

/-- Two consecutive chunks overlap by exactly the configured amount:
both extend past the overlap width, and the last `chunk_overlap`
characters of the first chunk are exactly the first `chunk_overlap`
characters of the second. -/
def overlapped (a b : List Char) : Prop :=
  chunk_overlap < a.length ∧ chunk_overlap < b.length ∧
    a.drop (a.length - chunk_overlap) = b.take chunk_overlap

theorem chunkLoop_length_le (sep : Char) :
    ∀ fuel text, ∀ c ∈ chunkLoop sep fuel text, c.length ≤ chunk_size := by
  intro fuel
  induction fuel with
  | zero => intro text c hc; simp [chunkLoop] at hc
  | succ fuel ih =>
    intro text c hc
    unfold chunkLoop at hc
    split at hc
    · split at hc
      · simp at hc
      · simp at hc; subst hc; assumption
    · rcases List.mem_cons.mp hc with h | h
      · subst h
        have hb := snapCut_bounds sep text
        rw [List.length_take]
        omega
      · exact ih _ c h

theorem chunkLoop_ne_nil (sep : Char) (fuel : Nat) (text : List Char)
    (hne : text ≠ []) (hfuel : text.length ≤ fuel) :
    chunkLoop sep fuel text ≠ [] := by
  cases fuel with
  | zero =>
    have hz : text.length = 0 := Nat.le_zero.mp hfuel
    exact absurd (List.length_eq_zero.mp hz) hne
  | succ fuel =>
    unfold chunkLoop
    split
    · have hemp : ¬ text.isEmpty := by simpa [List.isEmpty_iff]
      simp [hemp]
    · simp

theorem chunkLoop_head (sep : Char) (fuel : Nat) (text : List Char)
    (hlen : chunk_overlap < text.length) (hfuel : text.length ≤ fuel) :
    ∃ b l, chunkLoop sep fuel text = b :: l ∧
      b.take chunk_overlap = text.take chunk_overlap ∧
      chunk_overlap < b.length := by
  cases fuel with
  | zero => omega
  | succ fuel =>
    unfold chunkLoop
    by_cases hle : text.length ≤ chunk_size
    · have hemp : ¬ text.isEmpty := by
        simp [List.isEmpty_iff]
        intro h
        rw [h] at hlen
        simp at hlen
      exact ⟨text, [], by simp [hle, hemp], rfl, hlen⟩
    · have hb := snapCut_bounds sep text
      refine ⟨text.take (snapCut sep text),
        chunkLoop sep fuel (text.drop (snapCut sep text - chunk_overlap)),
        by rw [if_neg hle], ?_, ?_⟩
      · rw [List.take_take]
        congr 1
        omega
      · rw [List.length_take]
        omega

theorem chunkLoop_chain (sep : Char) :
    ∀ fuel text, text.length ≤ fuel →
      List.Chain' overlapped (chunkLoop sep fuel text) := by
  intro fuel
  induction fuel with
  | zero => intro text h; simp [chunkLoop]
  | succ fuel ih =>
    intro text hfuel
    unfold chunkLoop
    by_cases hle : text.length ≤ chunk_size
    · rw [if_pos hle]
      split <;> simp
    · rw [if_neg hle]
      have hb := snapCut_bounds sep text
      have hrestlen :
          chunk_overlap < (text.drop (snapCut sep text - chunk_overlap)).length := by
        rw [List.length_drop]
        omega
      have hrestfuel :
          (text.drop (snapCut sep text - chunk_overlap)).length ≤ fuel := by
        rw [List.length_drop]
        omega
      obtain ⟨b, l, hb1, hb2, hb3⟩ := chunkLoop_head sep fuel _ hrestlen hrestfuel
      rw [hb1, List.chain'_cons]
      constructor
      · have hlen : (text.take (snapCut sep text)).length = snapCut sep text := by
          rw [List.length_take]
          omega
        refine ⟨?_, hb3, ?_⟩
        · rw [hlen]; exact hb.1
        · rw [hlen, List.drop_take, hb2]
          have harith :
              snapCut sep text - (snapCut sep text - chunk_overlap) = chunk_overlap := by
            omega
          rw [harith]
      · have hch := ih _ hrestfuel
        rwa [hb1] at hch

/-- C1: for every non-empty raw text, `get_chunks` (maximum chunk size
1000, overlap 200, separator newline) produces a non-empty ordered list
of chunks in which every chunk has length at most 1000 characters and
every adjacent pair of chunks shares an overlap region of exactly the
configured 200 characters (the suffix of one chunk is the prefix of the
next). -/
theorem chunker_bounds_and_overlap (text : List Char) (hne : text ≠ []) :
    get_chunks text ≠ [] ∧
    (∀ c ∈ get_chunks text, c.length ≤ chunk_size) ∧
    List.Chain' overlapped (get_chunks text) :=
  ⟨chunkLoop_ne_nil separator text.length text hne le_rfl,
   chunkLoop_length_le separator text.length text,
   chunkLoop_chain separator text.length text le_rfl⟩

/-- Witness for C1 at the concrete two-character text "hi". -/
theorem chunker_bounds_and_overlap_witness :
    (('h' :: 'i' :: []) ≠ ([] : List Char)) ∧
    (get_chunks ('h' :: 'i' :: []) ≠ [] ∧
      (∀ c ∈ get_chunks ('h' :: 'i' :: []), c.length ≤ chunk_size) ∧
      List.Chain' overlapped (get_chunks ('h' :: 'i' :: []))) :=
  ⟨by decide, chunker_bounds_and_overlap ('h' :: 'i' :: []) (by decide)⟩

/-- Who produced a dialogue turn: the user side (langchain
`HumanMessage`) or the assistant side (`AIMessage`). -/
inductive Speaker
  | user
  | assistant
deriving DecidableEq

/-- One dialogue turn: a speaker together with its text, mirroring the
messages stored by langchain's `ConversationBufferMemory`. -/
structure Message where
  speaker : Speaker
  content : String
deriving DecidableEq

/-- Modelled from the spec: the similarity index built by
`get_vectorstore` (`FAISS.from_texts` over `OpenAIEmbeddings`, both
external services); only the indexed chunk texts are relevant to the
claims, the vectors themselves are opaque. -/
structure VectorStore where
  texts : List (List Char)
deriving DecidableEq

/-- The `ConversationalRetrievalChain` built by
`get_conversation_chain`: it holds the retriever over the vector store
and its own `ConversationBufferMemory`, the ordered list of dialogue
turns. -/
structure Chain where
  retriever : VectorStore
  memory : List Message
deriving DecidableEq

/-- The errors the handlers of `app.py` can surface: PyPDF2 failing to
parse a document, the indexing step failing (for instance on an empty
chunk list), the chat service failing, and the `TypeError` raised by
calling `st.session_state.conversations` while it is still `None`. -/
inductive AppError
  | extractionError
  | indexingError
  | generationError
  | noneTypeError
deriving DecidableEq

/-- The streamlit session state of `run_UI`: `st.session_state.conversations`
(the chain, `None` before the first successful processing) and
`st.session_state.chat_history` (the last rendered history, `None`
initially). -/
structure SessionState where
  conversations : Option Chain
  chat_history : Option (List Message)
deriving DecidableEq

/-- One `st.write` performed by a handler: the user chat bubble
(`user_template` with its message slot filled), the bot chat bubble
(`bot_template` with its message slot filled), or a plain text write.
The HTML templates live in `html_chatbot_template.py`, which is not part
of the sources; only which template is used and which text fills it
matters to the claims. -/
inductive Rendered
  | userMsg (content : String)
  | botMsg (content : String)
  | text (content : String)
deriving DecidableEq

/-- The observable outcome of one UI event handler: the session state
after the handler, the sequence of `st.write` calls it performed, and
the error it raised, if any (an uncaught exception is displayed by
streamlit and leaves the session state as it was). -/
structure StepResult where
  state : SessionState
  rendered : List Rendered
  error : Option AppError
deriving DecidableEq

/-- The external chat-completion service: from the chain's current
memory and the question text it produces a reply, or `none` when the
call fails (network or service error). -/
def ChatModel : Type := List Message → String → Option String

/-- An uploaded document as seen by `extract_text`: its name and the
page texts PyPDF2 extracts from it, or `none` when PyPDF2 raises while
parsing it (corrupt or encrypted content). -/
structure Document where
  name : String
  pages : Option (List (List Char))
deriving DecidableEq

/-- `extract_text` of `src/projects/app.py`: iterate over the uploaded
documents, concatenating the text of every page of every document in
upload order; a document PyPDF2 cannot parse raises, aborting the whole
batch with no partial text. -/
def extract_text : List Document → Except AppError (List Char)
  | [] => Except.ok []
  | d :: ds =>
    match d.pages with
    | none => Except.error AppError.extractionError
    | some ps =>
      match extract_text ds with
      | Except.error e => Except.error e
      | Except.ok rest => Except.ok (ps.flatten ++ rest)

/-- `get_vectorstore` of `src/projects/app.py`. Modelled from the spec
for the external part: `FAISS.from_texts` with `OpenAIEmbeddings` builds
the index over the chunks; on an empty chunk list the build fails
(IndexingError) instead of silently producing an empty index. -/
def get_vectorstore (chunks : List (List Char)) : Except AppError VectorStore :=
  if chunks.isEmpty then Except.error AppError.indexingError
  else Except.ok { texts := chunks }

/-- `get_conversation_chain` of `src/projects/app.py`: a new chain over
the given vector store with a freshly initialized (empty)
`ConversationBufferMemory`. -/
def get_conversation_chain (vector_store : VectorStore) : Chain :=
  { retriever := vector_store, memory := [] }

/-- Calling the conversation chain with a question, as
`st.session_state.conversations(\x7b'question': q\x7d)` does: on success the
chain appends the question turn and the reply turn to its memory and the
returned `chat_history` is that updated message list (the memory object
is aliased into the response); on a chat-service failure the exception
propagates and the memory is not touched. -/
def callChain (llm : ChatModel) (c : Chain) (q : String) :
    Option (Chain × List Message) :=
  match llm c.memory q with
  | none => none
  | some reply =>
    let mem := c.memory ++
      [{ speaker := Speaker.user, content := q },
       { speaker := Speaker.assistant, content := reply }]
    some ({ c with memory := mem }, mem)

/-- The backend prompt built by `generate_response` around the user's
question (the f-string of `src/projects/app.py`, lines 145-148). -/
def backend_prompt (user_question : String) : String :=
  "\n    Act as a teacher with 20 years of experience and answer the user question in a way which is easy for a student to understand:\n    Question: "
    ++ user_question ++ "\n    "

/-- The rendering loop of `generate_response` (lines 157-164): for each
index-message pair of the chat history, even indices render the user
template filled with the current `user_question`, odd indices render the
bot template filled with the message's content. -/
def renderFrom (user_question : String) : Nat → List Message → List Rendered
  | _, [] => []
  | i, m :: ms =>
    (if i % 2 = 0 then Rendered.userMsg user_question
     else Rendered.botMsg m.content)
      :: renderFrom user_question (i + 1) ms

/-- `generate_response` of `src/projects/app.py`: build the backend
prompt around the question, call the chain with it (a `TypeError`
propagates when `conversations` is still `None`, a chat-service failure
propagates before any state change), store the returned history in
`st.session_state.chat_history`, and render every turn, showing the raw
`user_question` for the even (user) positions and the stored content for
the odd (bot) positions. -/
def generate_response (llm : ChatModel) (s : SessionState)
    (user_question : String) : StepResult :=
  match s.conversations with
  | none => { state := s, rendered := [], error := some AppError.noneTypeError }
  | some chain =>
    match callChain llm chain (backend_prompt user_question) with
    | none => { state := s, rendered := [], error := some AppError.generationError }
    | some (chain2, hist) =>
      { state := { conversations := some chain2, chat_history := some hist },
        rendered := renderFrom user_question 0 hist,
        error := none }

/-- The fixed instructional quiz prompt of `generate_quiz`
(`src/projects/app.py`, line 174). -/
def quiz_prompt : String :=
  "Create a set of 10 quiz questions with four multiple-choice answers each, formatted for clarity. Each question should be followed by its answer options listed vertically. Ensure the content covers a broad range of topics from the document to evaluate a comprehensive understanding."

/-- The rendering loop of `generate_quiz` (lines 183-186): every
history message except the one at index 0 is rendered with the bot
template. -/
def renderQuizFrom : Nat → List Message → List Rendered
  | _, [] => []
  | i, m :: ms =>
    if i > 0 then Rendered.botMsg m.content :: renderQuizFrom (i + 1) ms
    else renderQuizFrom (i + 1) ms

/-- `generate_quiz` of `src/projects/app.py`: write the "Quiz questions"
title, call the chain with the fixed quiz prompt, store the returned
history, and render every history message except the first one with the
bot template. -/
def generate_quiz (llm : ChatModel) (s : SessionState) : StepResult :=
  match s.conversations with
  | none =>
    { state := s, rendered := [Rendered.text "Quiz questions"],
      error := some AppError.noneTypeError }
  | some chain =>
    match callChain llm chain quiz_prompt with
    | none =>
      { state := s, rendered := [Rendered.text "Quiz questions"],
        error := some AppError.generationError }
    | some (chain2, hist) =>
      { state := { conversations := some chain2, chat_history := some hist },
        rendered := Rendered.text "Quiz questions" :: renderQuizFrom 0 hist,
        error := none }

/-- The upload-and-process branch of `run_UI` (`src/projects/app.py`,
lines 234-247): on the "Start Chatting" event run `extract_text`,
`get_chunks` and `get_vectorstore` in sequence and bind a fresh
conversation chain into `st.session_state.conversations`; an exception
anywhere in the pipeline propagates, leaving the session state as it
was; `st.session_state.chat_history` is not written by this handler. -/
def process_event (docs : List Document) (s : SessionState) : StepResult :=
  match extract_text docs with
  | Except.error e => { state := s, rendered := [], error := some e }
  | Except.ok raw_text =>
    match get_vectorstore (get_chunks raw_text) with
    | Except.error e => { state := s, rendered := [], error := some e }
    | Except.ok vector_store =>
      { state := { conversations := some (get_conversation_chain vector_store),
                   chat_history := s.chat_history },
        rendered := [],
        error := none }

theorem renderFrom_append (q : String) (i : Nat) (l1 l2 : List Message) :
    renderFrom q i (l1 ++ l2) =
      renderFrom q i l1 ++ renderFrom q (i + l1.length) l2 := by
  induction l1 generalizing i with
  | nil => simp [renderFrom]
  | cons m ms ih =>
    have harith : i + 1 + ms.length = i + (ms.length + 1) := by omega
    simp [renderFrom, ih (i + 1), harith]

theorem renderFrom_length (q : String) :
    ∀ (i : Nat) (l : List Message), (renderFrom q i l).length = l.length := by
  intro i l
  induction l generalizing i with
  | nil => rfl
  | cons m ms ih => simp [renderFrom, ih]

theorem renderFrom_getElem? (q : String) :
    ∀ (l : List Message) (start i : Nat), i < l.length → (start + i) % 2 = 0 →
      (renderFrom q start l)[i]? = some (Rendered.userMsg q) := by
  intro l
  induction l with
  | nil => intro start i hi _; simp at hi
  | cons m ms ih =>
    intro start i hi hpar
    cases i with
    | zero =>
      simp at hpar
      simp [renderFrom, hpar]
    | succ i =>
      have hpar2 : (start + 1 + i) % 2 = 0 := by omega
      have hi2 : i < ms.length := by simpa using hi
      simp only [renderFrom, List.getElem?_cons_succ]
      exact ih (start + 1) i hi2 hpar2

theorem backend_prompt_ne (q : String) : backend_prompt q ≠ q := by
  intro h
  have hlen := congrArg String.length h
  rw [backend_prompt, String.length_append, String.length_append] at hlen
  have h1 : 0 <
      String.length "\n    Act as a teacher with 20 years of experience and answer the user question in a way which is easy for a student to understand:\n    Question: " := by
    decide
  omega

/-- A one-chunk vector store used by the concrete witnesses. -/
def docStore : VectorStore := { texts := [('d' :: [])] }

/-- A freshly built conversation chain (empty memory) over `docStore`. -/
def freshChain : Chain := { retriever := docStore, memory := [] }

/-- A Ready session just after processing: chain bound, nothing
rendered yet. -/
def readyFresh : SessionState :=
  { conversations := some freshChain, chat_history := none }

/-- A session before any document was processed. -/
def uninit : SessionState := { conversations := none, chat_history := none }

/-- The dialogue memory after one completed exchange (the question
"first" and the reply "a1"). -/
def priorMemory : List Message :=
  [{ speaker := Speaker.user, content := backend_prompt "first" },
   { speaker := Speaker.assistant, content := "a1" }]

/-- A chain that already holds one completed exchange. -/
def priorChain : Chain := { retriever := docStore, memory := priorMemory }

/-- A Ready session that already holds one completed exchange. -/
def readyPrior : SessionState :=
  { conversations := some priorChain, chat_history := some priorMemory }

/-- A chat model that always succeeds with the fixed reply `r`. -/
def llmConst (r : String) : ChatModel := fun _ _ => some r

/-- A chat model whose every call fails. -/
def llmFail : ChatModel := fun _ _ => none

/-- C2: issuing a question while `st.session_state.conversations` is
still `None` never contacts the chat service (the outcome is the same
for every chat model) and never touches the session state, in
particular the dialogue history; but instead of a "please upload and
process a document first" notice, the handler raises the `TypeError` of
calling `None` and renders nothing. -/
theorem ask_uninitialized_raises (llm llm2 : ChatModel) (s : SessionState)
    (q : String) (hc : s.conversations = none) :
    generate_response llm s q =
      { state := s, rendered := [], error := some AppError.noneTypeError } ∧
    generate_response llm s q = generate_response llm2 s q := by
  constructor
  · simp [generate_response, hc]
  · simp [generate_response, hc]

/-- Witness for C2 at a fresh session and the question "hi". -/
theorem ask_uninitialized_raises_witness :
    uninit.conversations = none ∧
    (generate_response (llmConst "a") uninit "hi" =
      { state := uninit, rendered := [], error := some AppError.noneTypeError } ∧
    generate_response (llmConst "a") uninit "hi" =
      generate_response llmFail uninit "hi") :=
  ⟨rfl, ask_uninitialized_raises (llmConst "a") llmFail uninit "hi" rfl⟩

/-- C3: a successful question in the Ready state appends exactly two
turns to the dialogue history — the user turn carrying the prompt, then
the assistant turn carrying the reply, in that order — both in the
chain's memory and in `st.session_state.chat_history`, and the reply
text is rendered.  The parity hypothesis holds in every reachable Ready
state: the memory starts empty and every successful call appends two
turns. -/
theorem ask_success_appends_two_turns (llm : ChatModel) (s : SessionState)
    (q : String) (chain : Chain) (reply : String)
    (hc : s.conversations = some chain)
    (hl : llm chain.memory (backend_prompt q) = some reply)
    (hev : chain.memory.length % 2 = 0) :
    (generate_response llm s q).error = none ∧
    (generate_response llm s q).state.chat_history =
      some (chain.memory ++
        [{ speaker := Speaker.user, content := backend_prompt q },
         { speaker := Speaker.assistant, content := reply }]) ∧
    (generate_response llm s q).state.conversations =
      some { chain with memory := chain.memory ++
        [{ speaker := Speaker.user, content := backend_prompt q },
         { speaker := Speaker.assistant, content := reply }] } ∧
    Rendered.botMsg reply ∈ (generate_response llm s q).rendered := by
  have hgr : generate_response llm s q =
      { state :=
          { conversations := some { chain with memory := chain.memory ++
              [{ speaker := Speaker.user, content := backend_prompt q },
               { speaker := Speaker.assistant, content := reply }] },
            chat_history := some (chain.memory ++
              [{ speaker := Speaker.user, content := backend_prompt q },
               { speaker := Speaker.assistant, content := reply }]) },
        rendered := renderFrom q 0 (chain.memory ++
          [{ speaker := Speaker.user, content := backend_prompt q },
           { speaker := Speaker.assistant, content := reply }]),
        error := none } := by
    simp [generate_response, callChain, hc, hl]
  rw [hgr]
  refine ⟨rfl, rfl, rfl, ?_⟩
  show Rendered.botMsg reply ∈ renderFrom q 0 (chain.memory ++
    [{ speaker := Speaker.user, content := backend_prompt q },
     { speaker := Speaker.assistant, content := reply }])
  rw [renderFrom_append]
  apply List.mem_append_right
  have h2 : ¬ (chain.memory.length + 1) % 2 = 0 := by omega
  simp [renderFrom, hev, h2]

/-- Witness for C3: a Ready session with empty memory, a chat model
that replies "ans", and the question "hi". -/
theorem ask_success_appends_two_turns_witness :
    readyFresh.conversations = some freshChain ∧
    llmConst "ans" freshChain.memory (backend_prompt "hi") = some "ans" ∧
    freshChain.memory.length % 2 = 0 ∧
    ((generate_response (llmConst "ans") readyFresh "hi").error = none ∧
    (generate_response (llmConst "ans") readyFresh "hi").state.chat_history =
      some (freshChain.memory ++
        [{ speaker := Speaker.user, content := backend_prompt "hi" },
         { speaker := Speaker.assistant, content := "ans" }]) ∧
    (generate_response (llmConst "ans") readyFresh "hi").state.conversations =
      some { freshChain with memory := freshChain.memory ++
        [{ speaker := Speaker.user, content := backend_prompt "hi" },
         { speaker := Speaker.assistant, content := "ans" }] } ∧
    Rendered.botMsg "ans" ∈
      (generate_response (llmConst "ans") readyFresh "hi").rendered) :=
  ⟨rfl, rfl, rfl,
    ask_success_appends_two_turns (llmConst "ans") readyFresh "hi"
      freshChain "ans" rfl rfl rfl⟩

/-- C4: when the chat-service call fails, the question handler leaves
the session state exactly as it was — same chain, same memory, same
`chat_history`, so the history length is unchanged and no partial turn
is appended — and renders nothing; only the error surfaces. -/
theorem ask_failure_preserves_history (llm : ChatModel) (s : SessionState)
    (q : String) (chain : Chain)
    (hc : s.conversations = some chain)
    (hl : llm chain.memory (backend_prompt q) = none) :
    generate_response llm s q =
      { state := s, rendered := [], error := some AppError.generationError } := by
  simp [generate_response, callChain, hc, hl]

/-- Witness for C4: a Ready session whose chat model fails on every
call. -/
theorem ask_failure_preserves_history_witness :
    readyFresh.conversations = some freshChain ∧
    llmFail freshChain.memory (backend_prompt "hi") = none ∧
    generate_response llmFail readyFresh "hi" =
      { state := readyFresh, rendered := [],
        error := some AppError.generationError } :=
  ⟨rfl, rfl,
    ask_failure_preserves_history llmFail readyFresh "hi" freshChain rfl rfl⟩

/-- C9: on a successful question, the turn sent to the chat model and
appended to the dialogue history is not the raw question but the fixed
instructional backend prompt with the question embedded in it (and that
prompt always differs from the raw question); the raw question text
appears only in the rendered user bubbles. -/
theorem ask_wraps_question_in_backend_prompt (llm : ChatModel)
    (s : SessionState) (q : String) (chain : Chain) (reply : String)
    (hc : s.conversations = some chain)
    (hl : llm chain.memory (backend_prompt q) = some reply) :
    (generate_response llm s q).state.chat_history =
      some (chain.memory ++
        [{ speaker := Speaker.user, content := backend_prompt q },
         { speaker := Speaker.assistant, content := reply }]) ∧
    backend_prompt q ≠ q ∧
    (∀ i, i % 2 = 0 → i < chain.memory.length + 2 →
      (generate_response llm s q).rendered[i]? = some (Rendered.userMsg q)) := by
  have hgr : generate_response llm s q =
      { state :=
          { conversations := some { chain with memory := chain.memory ++
              [{ speaker := Speaker.user, content := backend_prompt q },
               { speaker := Speaker.assistant, content := reply }] },
            chat_history := some (chain.memory ++
              [{ speaker := Speaker.user, content := backend_prompt q },
               { speaker := Speaker.assistant, content := reply }]) },
        rendered := renderFrom q 0 (chain.memory ++
          [{ speaker := Speaker.user, content := backend_prompt q },
           { speaker := Speaker.assistant, content := reply }]),
        error := none } := by
    simp [generate_response, callChain, hc, hl]
  rw [hgr]
  refine ⟨rfl, backend_prompt_ne q, ?_⟩
  intro i hpar hi
  show (renderFrom q 0 (chain.memory ++
    [{ speaker := Speaker.user, content := backend_prompt q },
     { speaker := Speaker.assistant, content := reply }]))[i]? =
    some (Rendered.userMsg q)
  apply renderFrom_getElem?
  · simpa using hi
  · simpa using hpar

/-- Witness for C9 at a Ready session with empty memory and the
question "hi". -/
theorem ask_wraps_question_in_backend_prompt_witness :
    readyFresh.conversations = some freshChain ∧
    llmConst "ans" freshChain.memory (backend_prompt "hi") = some "ans" ∧
    ((generate_response (llmConst "ans") readyFresh "hi").state.chat_history =
      some (freshChain.memory ++
        [{ speaker := Speaker.user, content := backend_prompt "hi" },
         { speaker := Speaker.assistant, content := "ans" }]) ∧
    backend_prompt "hi" ≠ "hi" ∧
    (∀ i, i % 2 = 0 → i < freshChain.memory.length + 2 →
      (generate_response (llmConst "ans") readyFresh "hi").rendered[i]? =
        some (Rendered.userMsg "hi"))) :=
  ⟨rfl, rfl,
    ask_wraps_question_in_backend_prompt (llmConst "ans") readyFresh "hi"
      freshChain "ans" rfl rfl⟩

/-- C10: on a successful question, the rendering loop walks the entire
updated history (prior turns included) and shows, at every even (user)
position, the text of the current question — so after earlier
exchanges, the earlier user turns are displayed as the latest question,
not as the questions actually asked. -/
theorem rendered_user_turns_show_current_question (llm : ChatModel)
    (s : SessionState) (q : String) (chain : Chain) (reply : String)
    (hc : s.conversations = some chain)
    (hl : llm chain.memory (backend_prompt q) = some reply) :
    (generate_response llm s q).rendered.length = chain.memory.length + 2 ∧
    (∀ i, i % 2 = 0 → i < chain.memory.length + 2 →
      (generate_response llm s q).rendered[i]? = some (Rendered.userMsg q)) := by
  have hgr : generate_response llm s q =
      { state :=
          { conversations := some { chain with memory := chain.memory ++
              [{ speaker := Speaker.user, content := backend_prompt q },
               { speaker := Speaker.assistant, content := reply }] },
            chat_history := some (chain.memory ++
              [{ speaker := Speaker.user, content := backend_prompt q },
               { speaker := Speaker.assistant, content := reply }]) },
        rendered := renderFrom q 0 (chain.memory ++
          [{ speaker := Speaker.user, content := backend_prompt q },
           { speaker := Speaker.assistant, content := reply }]),
        error := none } := by
    simp [generate_response, callChain, hc, hl]
  rw [hgr]
  constructor
  · show (renderFrom q 0 (chain.memory ++
      [{ speaker := Speaker.user, content := backend_prompt q },
       { speaker := Speaker.assistant, content := reply }])).length =
      chain.memory.length + 2
    rw [renderFrom_length]
    simp
  · intro i hpar hi
    show (renderFrom q 0 (chain.memory ++
      [{ speaker := Speaker.user, content := backend_prompt q },
       { speaker := Speaker.assistant, content := reply }]))[i]? =
      some (Rendered.userMsg q)
    apply renderFrom_getElem?
    · simpa using hi
    · simpa using hpar

/-- Witness for C10: a Ready session that already holds one exchange
(question "first"); asking "second" renders the earlier user position
(index 0) as "second". -/
theorem rendered_user_turns_show_current_question_witness :
    readyPrior.conversations = some priorChain ∧
    llmConst "a2" priorChain.memory (backend_prompt "second") = some "a2" ∧
    ((generate_response (llmConst "a2") readyPrior "second").rendered.length =
      priorChain.memory.length + 2 ∧
    (∀ i, i % 2 = 0 → i < priorChain.memory.length + 2 →
      (generate_response (llmConst "a2") readyPrior "second").rendered[i]? =
        some (Rendered.userMsg "second"))) :=
  ⟨rfl, rfl,
    rendered_user_turns_show_current_question (llmConst "a2") readyPrior
      "second" priorChain "a2" rfl rfl⟩

/-- C5: at the failing input — a quiz invocation in a Ready session
that already holds one completed exchange — the rendering loop of
`generate_quiz` skips only the history message at index 0 (the code
comment says "Skip the first message which is the prompt", but after a
prior exchange the first message is not the prompt), so the
instructional quiz prompt text is rendered on screen (in a bot bubble)
and the earlier answer is re-rendered alongside the generated quiz,
contradicting "the prompt is never rendered and only the generated quiz
content is shown". -/
theorem quiz_renders_prompt_after_prior_exchange :
    (generate_quiz (llmConst "generated quiz") readyPrior).rendered =
      [Rendered.text "Quiz questions", Rendered.botMsg "a1",
       Rendered.botMsg quiz_prompt, Rendered.botMsg "generated quiz"] := rfl

theorem extract_text_error (docs : List Document)
    (hbad : ∃ d ∈ docs, d.pages = none) :
    extract_text docs = Except.error AppError.extractionError := by
  induction docs with
  | nil => simp at hbad
  | cons d ds ih =>
    rcases hbad with ⟨d0, hd0, hp⟩
    rcases List.mem_cons.mp hd0 with h | h
    · rw [h] at hp
      simp [extract_text, hp]
    · cases hdp : d.pages with
      | none => simp [extract_text, hdp]
      | some ps =>
        have hih := ih ⟨d0, h, hp⟩
        simp [extract_text, hdp, hih]

/-- C6 counterexample: a successful upload-and-process event on a
session that already holds dialogue turns replaces the chain but leaves
`st.session_state.chat_history` exactly as it was — the turns from
before the event are still there, so the event did not clear the stored
dialogue history. -/
theorem process_keeps_old_chat_history :
    (process_event [{ name := "d.pdf", pages := some [('h' :: 'i' :: [])] }]
        readyPrior).error = none ∧
    (process_event [{ name := "d.pdf", pages := some [('h' :: 'i' :: [])] }]
        readyPrior).state.chat_history = some priorMemory :=
  ⟨rfl, rfl⟩

/-- C6 amended: every successful upload-and-process event runs
extraction, chunking and indexing in sequence and binds a brand-new
conversation chain — its index holds exactly the chunks of the newly
extracted text (no merging with any previous index) and its dialogue
memory is empty, so no turns from before the event are used in later
generation — but the stored `st.session_state.chat_history` is not
cleared: it is left exactly as it was, to be overwritten only by the
next question or quiz event. -/
theorem process_replaces_index_sequentially (docs : List Document)
    (s : SessionState) (raw_text : List Char)
    (he : extract_text docs = Except.ok raw_text)
    (hch : get_chunks raw_text ≠ []) :
    (process_event docs s).error = none ∧
    (process_event docs s).state.conversations =
      some { retriever := { texts := get_chunks raw_text }, memory := [] } ∧
    (process_event docs s).state.chat_history = s.chat_history := by
  have hemp : ¬ (get_chunks raw_text).isEmpty := by
    simpa [List.isEmpty_iff] using hch
  simp [process_event, he, get_vectorstore, hemp, get_conversation_chain]

/-- Witness for C6 (amended) at a one-document upload over the fresh
session. -/
theorem process_replaces_index_sequentially_witness :
    extract_text [{ name := "d.pdf", pages := some [('h' :: 'i' :: [])] }] =
      Except.ok ('h' :: 'i' :: []) ∧
    get_chunks ('h' :: 'i' :: []) ≠ [] ∧
    ((process_event [{ name := "d.pdf", pages := some [('h' :: 'i' :: [])] }]
        uninit).error = none ∧
    (process_event [{ name := "d.pdf", pages := some [('h' :: 'i' :: [])] }]
        uninit).state.conversations =
      some { retriever := { texts := get_chunks ('h' :: 'i' :: []) },
             memory := [] } ∧
    (process_event [{ name := "d.pdf", pages := some [('h' :: 'i' :: [])] }]
        uninit).state.chat_history = uninit.chat_history) :=
  ⟨rfl, by decide,
    process_replaces_index_sequentially
      [{ name := "d.pdf", pages := some [('h' :: 'i' :: [])] }]
      uninit ('h' :: 'i' :: []) rfl (by decide)⟩

/-- C7: when the extracted text is empty the chunker produces the empty
chunk list, processing stops with an IndexingError instead of silently
building an empty index, and the session state is left exactly as it
was — in particular a session that was Uninitialized stays
Uninitialized, with no index bound. -/
theorem empty_text_processing_fails (docs : List Document)
    (s : SessionState) (he : extract_text docs = Except.ok []) :
    get_chunks [] = [] ∧
    process_event docs s =
      { state := s, rendered := [], error := some AppError.indexingError } := by
  refine ⟨rfl, ?_⟩
  simp [process_event, he, get_chunks, chunkLoop, get_vectorstore]

/-- Witness for C7: one document whose single page yields no text,
processed from the fresh session. -/
theorem empty_text_processing_fails_witness :
    extract_text [{ name := "empty.pdf", pages := some [[]] }] =
      Except.ok [] ∧
    (get_chunks [] = [] ∧
    process_event [{ name := "empty.pdf", pages := some [[]] }] uninit =
      { state := uninit, rendered := [],
        error := some AppError.indexingError }) :=
  ⟨rfl,
    empty_text_processing_fails [{ name := "empty.pdf", pages := some [[]] }]
      uninit rfl⟩

/-- C8: when any uploaded document cannot be parsed, extraction fails
with an ExtractionError — no concatenated text is returned at all, even
for the documents that parsed — and the whole processing event aborts:
no index is built and the session state is left exactly as it was. -/
theorem extraction_failure_aborts_batch (docs : List Document)
    (s : SessionState) (hbad : ∃ d ∈ docs, d.pages = none) :
    extract_text docs = Except.error AppError.extractionError ∧
    process_event docs s =
      { state := s, rendered := [],
        error := some AppError.extractionError } := by
  have hext := extract_text_error docs hbad
  exact ⟨hext, by simp [process_event, hext]⟩

/-- Witness for C8: a parseable document followed by a corrupt one,
processed from the fresh session. -/
theorem extraction_failure_aborts_batch_witness :
    (∃ d ∈ [{ name := "a.pdf", pages := some [('x' :: [])] },
            ({ name := "bad.pdf", pages := none } : Document)],
      d.pages = none) ∧
    (extract_text [{ name := "a.pdf", pages := some [('x' :: [])] },
            ({ name := "bad.pdf", pages := none } : Document)] =
      Except.error AppError.extractionError ∧
    process_event [{ name := "a.pdf", pages := some [('x' :: [])] },
            ({ name := "bad.pdf", pages := none } : Document)] uninit =
      { state := uninit, rendered := [],
        error := some AppError.extractionError }) :=
  ⟨⟨{ name := "bad.pdf", pages := none }, by simp, rfl⟩,
    extraction_failure_aborts_batch
      [{ name := "a.pdf", pages := some [('x' :: [])] },
       { name := "bad.pdf", pages := none }] uninit
      ⟨{ name := "bad.pdf", pages := none }, by simp, rfl⟩⟩

end GenAI
